import Mathlib

/-!
# Verification of the adaptive-quiz core logic

Shallow embedding of the adaptation logic of an adaptive quiz web
application: difficulty adaptation, session counters, answer grading,
question reuse/generation, and the JSON extraction applied to the
text-generation collaborator's responses.  Definitions are translated
from the TypeScript source (the quiz interface component, the
`generate-question`, `grade-answer` and `evolve-quiz` edge functions,
and the database migration that supplies the column defaults).
JavaScript strings are modelled as `List Char` and JavaScript float
division by exact rational division.

The file lists all definitions first, followed by the theorems.
-/

namespace AdaptiQuest

/-- Difficulty tiers (`difficulty_level` enum in the migration). -/
inductive Difficulty where
  | easy
  | medium
  | hard
deriving DecidableEq, Repr

/-- Question types (`question_type` enum in the migration). -/
inductive QuestionType where
  | mcq
  | fill_blank
  | short_answer
  | long_answer
  | true_false
deriving DecidableEq, Repr

/--
Difficulty adaptation, translated from `submitAnswer` in the quiz
interface component (lines 199–217): once the updated total reaches 5,
the accuracy `newCorrectAnswers / newTotalQuestions` is compared against
the literals `0.7` and `0.5`; a step up is
`current === 'easy' ? 'medium' : 'hard'` and a step down is
`current === 'hard' ? 'medium' : 'easy'`.
-/
def adaptDifficulty (current : Difficulty) (newTotal newCorrect : Nat) : Difficulty :=
  if 5 ≤ newTotal then
    let accuracy : ℚ := (newCorrect : ℚ) / (newTotal : ℚ)
    if accuracy > 7/10 ∧ current ≠ .hard then
      if current = .easy then .medium else .hard
    else if accuracy < 1/2 ∧ current ≠ .easy then
      if current = .hard then .medium else .easy
    else current
  else current

/-- One tier up, as the spec words it: easy→medium, medium→hard. -/
def stepUpTier : Difficulty → Difficulty
  | .easy => .medium
  | .medium => .hard
  | .hard => .hard

/-- One tier down, as the spec words it: hard→medium, medium→easy. -/
def stepDownTier : Difficulty → Difficulty
  | .hard => .medium
  | .medium => .easy
  | .easy => .easy

/--
The difficulty-adapter rule as the spec words it (for comparison with
`adaptDifficulty`, which is translated from the source): accuracy
`correct/total`; step up one tier when accuracy > 0.7 and current is not
hard; step down one tier when accuracy < 0.5 and current is not easy;
otherwise unchanged.
-/
def specNextDifficulty (current : Difficulty) (total correct : Nat) : Difficulty :=
  let accuracy : ℚ := (correct : ℚ) / (total : ℚ)
  if accuracy > 7/10 ∧ current ≠ .hard then
    stepUpTier current
  else if accuracy < 1/2 ∧ current ≠ .easy then
    stepDownTier current
  else current

/-! ## JavaScript string normalisation used by grading

`toLowerCase` and `trim` are modelled character-wise: ASCII case
mapping (JavaScript's `toLowerCase` also maps non-ASCII letters, which
never produces or removes whitespace and is not relied on by any
claim) and removal of the common JavaScript whitespace characters from
both ends. -/

/-- Whitespace removed by the JavaScript string `trim`: tab, LF, VT,
FF, CR, space, NBSP, line/paragraph separator, BOM. -/
def jsIsWhitespace (c : Char) : Bool :=
  c.toNat == 9 || c.toNat == 10 || c.toNat == 11 || c.toNat == 12 || c.toNat == 13 ||
  c.toNat == 32 || c.toNat == 160 || c.toNat == 8232 || c.toNat == 8233 || c.toNat == 65279

/-- ASCII lower-casing of a single character (A–Z ↦ a–z). -/
def jsCharToLower (c : Char) : Char :=
  if 65 ≤ c.toNat ∧ c.toNat ≤ 90 then Char.ofNat (c.toNat + 32) else c

/-- JavaScript `String.prototype.toLowerCase`. -/
def jsToLowerCase (s : List Char) : List Char := s.map jsCharToLower

/-- JavaScript `String.prototype.trim`: drop whitespace from both ends. -/
def jsTrim (s : List Char) : List Char :=
  ((s.dropWhile jsIsWhitespace).reverse.dropWhile jsIsWhitespace).reverse

/--
The grading check of `submitAnswer` (quiz interface component, line
145):
`userAnswer.toLowerCase().trim() === currentQuestion.correct_answer.toLowerCase().trim()`.
-/
def gradeAnswer (userAnswer correctAnswer : List Char) : Bool :=
  jsTrim (jsToLowerCase userAnswer) == jsTrim (jsToLowerCase correctAnswer)

/-! ## Session state, initialization and answer submission -/

structure Question where
  id : Nat
  question_text : List Char
  question_type : QuestionType
  difficulty : Difficulty
  correct_answer : List Char
deriving DecidableEq, Repr

/-- A `user_answers` row (append-only). -/
structure AnswerRecord where
  question_id : Nat
  user_answer : List Char
  is_correct : Bool
  ai_feedback : List Char
deriving DecidableEq, Repr

/-- A `quiz_sessions` row together with its `user_answers` rows. -/
structure SessionState where
  user_id : Nat
  topic_id : Nat
  current_difficulty : Difficulty
  total_questions : Nat
  correct_answers : Nat
  focus_area : Option (List Char)
  is_active : Bool
  answers : List AnswerRecord
deriving DecidableEq, Repr

/--
`initializeQuiz` (quiz interface component, lines 59–73): inserts a
quiz-session row with `current_difficulty: 'medium'`; the migration
supplies the column defaults `total_questions 0`, `correct_answers 0`,
`is_active true`.  The session starts with no answer rows.
-/
def initializeQuiz (profileId topicId : Nat) : SessionState :=
  { user_id := profileId
    topic_id := topicId
    current_difficulty := .medium
    total_questions := 0
    correct_answers := 0
    focus_area := none
    is_active := true
    answers := [] }

/--
The guard on the `grade-answer` invocation in `submitAnswer` (line 149):
feedback is requested when the question type is neither `mcq` nor
`true_false`.
-/
def requestsAiFeedback (t : QuestionType) : Bool :=
  (t != .mcq) && (t != .true_false)

/--
One `submitAnswer` step (quiz interface component, lines 138–228):
grade the answer, obtain AI feedback when the guard holds (a failed
feedback call is only logged and degrades to empty feedback), append
the `user_answers` row, bump the session counters, and adapt the
difficulty.  `feedbackResult` is the outcome of the external
`grade-answer` call, were it made.
-/
def submitAnswer (s : SessionState) (q : Question) (userAnswer : List Char)
    (feedbackResult : Except (List Char) (List Char)) : SessionState :=
  let isCorrect := gradeAnswer userAnswer q.correct_answer
  let feedback : List Char :=
    if requestsAiFeedback q.question_type then
      match feedbackResult with
      | .ok f => f
      | .error _ => []
    else []
  let newTotal := s.total_questions + 1
  let newCorrect := s.correct_answers + (if isCorrect then 1 else 0)
  { s with
    answers := s.answers ++ [⟨q.id, userAnswer, isCorrect, feedback⟩]
    total_questions := newTotal
    correct_answers := newCorrect
    current_difficulty := adaptDifficulty s.current_difficulty newTotal newCorrect }

/-- One submitted answer: the question shown, the submitted text, and
the outcome of the feedback call were it made. -/
structure SubmittedAnswer where
  question : Question
  text : List Char
  feedbackResult : Except (List Char) (List Char)

/-- A session run: a sequence of answer submissions from a state. -/
def runSession (s : SessionState) (steps : List SubmittedAnswer) : SessionState :=
  steps.foldl (fun st a => submitAnswer st a.question a.text a.feedbackResult) s

/-- The session counters agree with the session's answer history. -/
def countersConsistent (s : SessionState) : Prop :=
  s.total_questions = s.answers.length ∧
  s.correct_answers = (s.answers.filter (fun r => r.is_correct)).length

/-! ## The topic-evolution advisor's session update -/

/-- The decision JSON returned by the collaborator to the `evolve-quiz`
edge function. -/
structure EvolutionDecision where
  action : List Char
  reasoning : List Char
  new_difficulty : Option Difficulty
  suggested_topic : Option (List Char)
  focus_area : Option (List Char)
  message_to_user : List Char

/--
The session update of the `evolve-quiz` edge function (lines 114–130):
a present (truthy) `new_difficulty` is written to `current_difficulty`
and a present `focus_area` to `focus_area`, unconditionally — the
handler performs no check of the session's answer count.
-/
def applyEvolution (s : SessionState) (dec : EvolutionDecision) : SessionState :=
  let s1 := match dec.new_difficulty with
    | some d => { s with current_difficulty := d }
    | none => s
  match dec.focus_area with
  | some f => { s1 with focus_area := some f }
  | none => s1

/-! ## JSON extraction from collaborator responses

Both edge functions run `generatedText.match(/\{[\s\S]*\}/)` on the
collaborator's free-form reply and hand `jsonMatch[0]` to `JSON.parse`.
The regex is greedy: at the first open brace it consumes through the
last close brace of the whole text. -/

/-- The opening curly brace character. -/
def obrace : Char := Char.ofNat 123

/-- The closing curly brace character. -/
def cbrace : Char := Char.ofNat 125

/-- The greedy `[\s\S]*\}` tail of the pattern: consume the prefix up
to and including the last close brace of `s`; fail when `s` holds no
close brace. -/
def greedyToLastClose : List Char → Option (List Char)
  | [] => none
  | c :: rest =>
    match greedyToLastClose rest with
    | some t => some (c :: t)
    | none => if c = cbrace then some [c] else none

/-- Operational model of `text.match(/\{[\s\S]*\}/)`, as used by the
`generate-question` (lines 256–261) and `evolve-quiz` (lines 107–112)
handlers: the engine tries each start position left to right; at an
open brace it matches greedily through the last close brace. -/
def jsonMatch : List Char → Option (List Char)
  | [] => none
  | c :: rest =>
    if c = obrace then
      match greedyToLastClose rest with
      | some t => some (c :: t)
      | none => jsonMatch rest
    else jsonMatch rest

/-- Declarative reading of the greedy match: the span from the first
open brace of the text to the last close brace of the text (no match
when no close brace follows the first open brace). -/
def firstToLastBraceSpan (text : List Char) : Option (List Char) :=
  let fromOpen := text.dropWhile (fun c => c != obrace)
  let upToClose := (fromOpen.reverse.dropWhile (fun c => c != cbrace)).reverse
  if upToClose.isEmpty then none else some upToClose

/-- Scan after an opening brace with `depth` nested unclosed opening
braces, collecting the characters up to and including the close brace
matching the initial one. -/
def balancedTail : Nat → List Char → Option (List Char)
  | _, [] => none
  | depth, c :: rest =>
    if c = cbrace then
      if depth = 0 then some [c]
      else (balancedTail (depth - 1) rest).map (fun t => c :: t)
    else if c = obrace then
      (balancedTail (depth + 1) rest).map (fun t => c :: t)
    else
      (balancedTail depth rest).map (fun t => c :: t)

/-- The extraction the spec describes, stated from the spec's words for
comparison with `jsonMatch`: the first balanced JSON object — the
substring starting at the first opening brace and ending at its
matching closing brace. -/
def specFirstBalanced (text : List Char) : Option (List Char) :=
  match text.dropWhile (fun c => c != obrace) with
  | [] => none
  | c :: rest => (balancedTail 0 rest).map (fun t => c :: t)

/-! ## A model of `JSON.parse`

A recursive-descent parser for the JSON grammar (fuel-recursive on the
nesting depth, which is bounded by the input length).  `\uXXXX` escapes
are decoded as single code units (surrogate-pair combination is not
modelled; no claim depends on it). -/

/-- Parsed JSON values.  Numbers keep their source characters. -/
inductive Json where
  | null
  | bool (b : Bool)
  | num (raw : List Char)
  | str (s : List Char)
  | arr (elems : List Json)
  | obj (fields : List (List Char × Json))
deriving Repr

/-- JSON insignificant whitespace. -/
def skipWs (s : List Char) : List Char :=
  s.dropWhile (fun c => c == ' ' || c == '\t' || c == '\n' || c == '\r')

/-- Value of a hexadecimal digit. -/
def hexDigitVal (c : Char) : Option Nat :=
  if 48 ≤ c.toNat ∧ c.toNat ≤ 57 then some (c.toNat - 48)
  else if 97 ≤ c.toNat ∧ c.toNat ≤ 102 then some (c.toNat - 87)
  else if 65 ≤ c.toNat ∧ c.toNat ≤ 70 then some (c.toNat - 55)
  else none

/-- Single-character JSON string escapes. -/
def escapeChar (e : Char) : Option Char :=
  if e = '"' then some '"'
  else if e = '\\' then some '\\'
  else if e = '/' then some '/'
  else if e = 'b' then some (Char.ofNat 8)
  else if e = 'f' then some (Char.ofNat 12)
  else if e = 'n' then some '\n'
  else if e = 'r' then some '\r'
  else if e = 't' then some '\t'
  else none

/-- Body of a JSON string after the opening quote: decoded content and
the remainder after the closing quote. -/
def parseStringBody : List Char → Option (List Char × List Char)
  | [] => none
  | c :: rest =>
    if c = '"' then some ([], rest)
    else if c = '\\' then
      match rest with
      | [] => none
      | e :: rest2 =>
        if e = 'u' then
          match rest2 with
          | h1 :: h2 :: h3 :: h4 :: rest3 =>
            match hexDigitVal h1, hexDigitVal h2, hexDigitVal h3, hexDigitVal h4 with
            | some a, some b, some c2, some d =>
              (parseStringBody rest3).map
                (fun p => (Char.ofNat (((a * 16 + b) * 16 + c2) * 16 + d) :: p.1, p.2))
            | _, _, _, _ => none
          | _ => none
        else
          match escapeChar e with
          | some ec => (parseStringBody rest2).map (fun p => (ec :: p.1, p.2))
          | none => none
    else (parseStringBody rest).map (fun p => (c :: p.1, p.2))

/-- One or more decimal digits. -/
def parseDigits (s : List Char) : Option (List Char × List Char) :=
  let ds := s.takeWhile Char.isDigit
  if ds.isEmpty then none else some (ds, s.drop ds.length)

/-- Integer part of a JSON number: `0` or a nonzero digit followed by
digits. -/
def parseIntPart : List Char → Option (List Char × List Char)
  | [] => none
  | c :: rest =>
    if c = '0' then some ([c], rest)
    else if c.isDigit then
      let ds := rest.takeWhile Char.isDigit
      some (c :: ds, rest.drop ds.length)
    else none

/-- Optional fraction part of a JSON number. -/
def parseFracPart (s : List Char) : Option (List Char × List Char) :=
  match s with
  | c :: rest =>
    if c = '.' then
      match parseDigits rest with
      | some (ds, r) => some (c :: ds, r)
      | none => none
    else some ([], s)
  | [] => some ([], s)

/-- Optional exponent part of a JSON number. -/
def parseExpPart (s : List Char) : Option (List Char × List Char) :=
  match s with
  | c :: rest =>
    if c = 'e' ∨ c = 'E' then
      let signAndRest : List Char × List Char :=
        match rest with
        | d :: r2 => if d = '+' ∨ d = '-' then ([d], r2) else ([], rest)
        | [] => ([], rest)
      match parseDigits signAndRest.2 with
      | some (ds, r) => some (c :: (signAndRest.1 ++ ds), r)
      | none => none
    else some ([], s)
  | [] => some ([], s)

/-- A JSON number, returned as its source characters. -/
def parseNumber (s : List Char) : Option (List Char × List Char) :=
  let signAndRest : List Char × List Char :=
    match s with
    | c :: r => if c = '-' then ([c], r) else ([], s)
    | [] => ([], s)
  match parseIntPart signAndRest.2 with
  | none => none
  | some (ip, s2) =>
    match parseFracPart s2 with
    | none => none
    | some (fp, s3) =>
      match parseExpPart s3 with
      | none => none
      | some (ep, s4) => some (signAndRest.1 ++ ip ++ fp ++ ep, s4)

/-- Consume an expected literal word. -/
def dropLit : List Char → List Char → Option (List Char)
  | [], s => some s
  | c :: cs, d :: ds => if c = d then dropLit cs ds else none
  | _ :: _, [] => none

mutual

/-- A JSON value and the remaining input. -/
def parseVal : Nat → List Char → Option (Json × List Char)
  | 0, _ => none
  | Nat.succ fuel, s =>
    match skipWs s with
    | [] => none
    | c :: rest =>
      if c = '"' then
        (parseStringBody rest).map (fun p => (Json.str p.1, p.2))
      else if c = obrace then
        match skipWs rest with
        | d :: r2 =>
          if d = cbrace then some (Json.obj [], r2)
          else (parseObjItems fuel (skipWs rest)).map (fun p => (Json.obj p.1, p.2))
        | [] => none
      else if c = '[' then
        match skipWs rest with
        | d :: r2 =>
          if d = ']' then some (Json.arr [], r2)
          else (parseArrItems fuel (skipWs rest)).map (fun p => (Json.arr p.1, p.2))
        | [] => none
      else if c = 't' then
        (dropLit ['r', 'u', 'e'] rest).map (fun r => (Json.bool true, r))
      else if c = 'f' then
        (dropLit ['a', 'l', 's', 'e'] rest).map (fun r => (Json.bool false, r))
      else if c = 'n' then
        (dropLit ['u', 'l', 'l'] rest).map (fun r => (Json.null, r))
      else
        (parseNumber (c :: rest)).map (fun p => (Json.num p.1, p.2))

/-- Array elements from the first element on, through the closing
bracket. -/
def parseArrItems : Nat → List Char → Option (List Json × List Char)
  | 0, _ => none
  | Nat.succ fuel, s =>
    match parseVal fuel s with
    | none => none
    | some (v, r) =>
      match skipWs r with
      | c :: r2 =>
        if c = ',' then (parseArrItems fuel r2).map (fun p => (v :: p.1, p.2))
        else if c = ']' then some ([v], r2)
        else none
      | [] => none

/-- Object members from the first member on, through the closing
brace. -/
def parseObjItems : Nat → List Char → Option (List (List Char × Json) × List Char)
  | 0, _ => none
  | Nat.succ fuel, s =>
    match skipWs s with
    | c :: rest =>
      if c = '"' then
        match parseStringBody rest with
        | none => none
        | some (key, r1) =>
          match skipWs r1 with
          | d :: r2 =>
            if d = ':' then
              match parseVal fuel r2 with
              | none => none
              | some (v, r3) =>
                match skipWs r3 with
                | e :: r4 =>
                  if e = ',' then (parseObjItems fuel r4).map (fun p => ((key, v) :: p.1, p.2))
                  else if e = cbrace then some ([(key, v)], r4)
                  else none
                | [] => none
            else none
          | [] => none
      else none
    | [] => none

end

/-- `JSON.parse`: a single JSON value covering the whole input. -/
def parseJson (s : List Char) : Option Json :=
  match parseVal (s.length + 1) s with
  | some (j, rest) => if (skipWs rest).isEmpty then some j else none
  | none => none

/-! ## The generate-question handler after the collaborator's reply -/

/-- JavaScript property read on a parsed JSON value (`JSON.parse` keeps
the last occurrence of a duplicated key; reads on non-objects used here
yield undefined, modelled `none`). -/
def Json.getField (j : Json) (key : List Char) : Option Json :=
  match j with
  | .obj fields => fields.foldl (fun acc f => if f.1 == key then some f.2 else acc) none
  | _ => none

/-- The six properties the `generate-question` handler reads off the
parsed object when building the insert row and the response (an absent
property is undefined, modelled `none`). -/
structure QuestionFields where
  question_text : Option Json
  question_type : Option Json
  difficulty : Option Json
  correct_answer : Option Json
  options : Option Json
  rationale : Option Json

/-- Read the six question properties off the parsed object. -/
def buildFields (j : Json) : QuestionFields :=
  { question_text := j.getField "question_text".data
    question_type := j.getField "question_type".data
    difficulty := j.getField "difficulty".data
    correct_answer := j.getField "correct_answer".data
    options := j.getField "options".data
    rationale := j.getField "rationale".data }

/-- The non-conditional fields of the response format stated in the
generation prompt (`options` is required only for MCQ). -/
def hasExpectedFields (f : QuestionFields) : Bool :=
  f.question_text.isSome && f.correct_answer.isSome && f.question_type.isSome &&
  f.difficulty.isSome && f.rationale.isSome

/-- What a `generate-question` request answers and whether a question
row was stored. -/
structure GenOutcome where
  response : Except (List Char) (Option Nat × QuestionFields)
  persisted : Bool

/--
The tail of the `generate-question` edge function after the
collaborator answered with `generatedText` (lines 250–298): extract the
greedy brace span (no span: throw "Invalid JSON format in response"),
`JSON.parse` it (a parse failure is thrown; either throw is caught and
becomes an error response, nothing stored), insert the question row
(`saveResult` is the storage collaborator's reply; an insert error is
only logged) and answer with the question fields, using the stored id
when the insert succeeded and a random placeholder id (modelled `none`)
otherwise.
-/
def generateQuestionHandler (generatedText : List Char)
    (saveResult : Except (List Char) Nat) : GenOutcome :=
  match jsonMatch generatedText with
  | none => { response := .error "Invalid JSON format in response".data, persisted := false }
  | some sub =>
    match parseJson sub with
    | none => { response := .error "SyntaxError".data, persisted := false }
    | some j =>
      let f := buildFields j
      match saveResult with
      | .ok newId => { response := .ok (some newId, f), persisted := true }
      | .error _ => { response := .ok (none, f), persisted := false }

/-! ## The question provider -/

/-- A stored `questions` row (the columns the provider logic reads). -/
structure StoredQuestion where
  topic_id : Nat
  difficulty : Difficulty
  question_text : List Char
  correct_answer : List Char
deriving DecidableEq, Repr

/-- The storage query of `loadNextQuestion` (lines 87–92):
`.eq('topic_id', ...).eq('difficulty', ...).limit(1)`. -/
def queryTopicDifficulty (db : List StoredQuestion) (t : Nat) (d : Difficulty) :
    List StoredQuestion :=
  (db.filter (fun q => q.topic_id == t && q.difficulty == d)).take 1

/-- The context query of the `generate-question` function (lines
183–187): `.eq('topic_id', ...).limit(5)`. -/
def queryTopicContext (db : List StoredQuestion) (t : Nat) : List StoredQuestion :=
  (db.filter (fun q => q.topic_id == t)).take 5

/-- How the next question is obtained. -/
inductive LoadOutcome where
  | reused (q : StoredQuestion)
  | generationRequested (promptContext : List StoredQuestion)
  | errorShown (msg : List Char)
deriving DecidableEq, Repr

/--
`loadNextQuestion` (lines 85–111) composed with the context fetch of
the `generate-question` function: `fetch` is the storage collaborator's
reply to the (topic, difficulty) limit-1 query.  A read error is logged
and falls back to requesting generation (the catch of lines 106–110);
the `errorShown` outcome is never produced on this path.
-/
def loadNextQuestionStep (fetch : Except (List Char) (List StoredQuestion))
    (db : List StoredQuestion) (t : Nat) (d : Difficulty) : LoadOutcome :=
  match fetch with
  | .error _ => .generationRequested (queryTopicContext db t)
  | .ok qs =>
    match qs with
    | q :: _ => .reused q
    | [] => .generationRequested (queryTopicContext db t)

/-- The happy path: the storage collaborator answers the limit-1 query
over `db`. -/
def loadNextQuestion (db : List StoredQuestion) (t : Nat) (d : Difficulty) : LoadOutcome :=
  loadNextQuestionStep (.ok (queryTopicDifficulty db t d)) db t d

/-! ## Theorems -/

/--
**C1.** For every state with total answered ≥ 5 the adapter computes
accuracy = correct/total and steps one tier up when accuracy > 0.7 and
current ≠ hard, one tier down when accuracy < 0.5 and current ≠ easy,
and otherwise leaves the difficulty unchanged; in particular
(medium, total 5, correct 4) yields hard, and for current = hard any
accuracy > 0.7 leaves the difficulty hard.
-/
theorem adaptDifficulty_spec (current : Difficulty) (total correct : Nat)
    (htot : 5 ≤ total) :
    adaptDifficulty current total correct = specNextDifficulty current total correct ∧
    adaptDifficulty .medium 5 4 = .hard ∧
    ((correct : ℚ) / (total : ℚ) > 7/10 → adaptDifficulty .hard total correct = .hard) := by
  refine ⟨?_, by norm_num [adaptDifficulty]; decide, ?_⟩
  · unfold adaptDifficulty specNextDifficulty
    rw [if_pos htot]
    cases current <;> simp [stepUpTier, stepDownTier]
  · intro hacc
    unfold adaptDifficulty
    rw [if_pos htot]
    simp [hacc]
    linarith

/-- Witness for `adaptDifficulty_spec` at total = 5, correct = 4, current = medium. -/
theorem adaptDifficulty_spec_witness :
    adaptDifficulty .medium 5 4 = specNextDifficulty .medium 5 4 :=
  (adaptDifficulty_spec .medium 5 4 (by norm_num)).1

theorem toNat_ofNat_valid (n : Nat) (h : Nat.isValidChar n) : (Char.ofNat n).toNat = n := by
  unfold Char.ofNat
  simp [h]
  unfold Char.ofNatAux Char.toNat
  simp [UInt32.toNat]

theorem jsIsWhitespace_jsCharToLower (c : Char) :
    jsIsWhitespace (jsCharToLower c) = jsIsWhitespace c := by
  unfold jsCharToLower
  split
  case isTrue h =>
    have hv : Nat.isValidChar (c.toNat + 32) := Or.inl (by omega)
    have ht := toNat_ofNat_valid _ hv
    have hl : jsIsWhitespace (Char.ofNat (c.toNat + 32)) = false := by
      simp [jsIsWhitespace, ht]; omega
    have hr : jsIsWhitespace c = false := by
      simp [jsIsWhitespace]; omega
    rw [hl, hr]
  case isFalse h => rfl

/-- Lower-casing commutes with trimming: it maps no character into or
out of the whitespace set. -/
theorem jsTrim_jsToLowerCase (s : List Char) :
    jsTrim (jsToLowerCase s) = jsToLowerCase (jsTrim s) := by
  have hcomp : jsIsWhitespace ∘ jsCharToLower = jsIsWhitespace :=
    funext jsIsWhitespace_jsCharToLower
  unfold jsTrim jsToLowerCase
  rw [List.dropWhile_map, hcomp, ← List.map_reverse, List.dropWhile_map, hcomp,
    ← List.map_reverse]

/--
**C4.** An answer is graded correct iff the submitted and stored strings
are equal after trimming surrounding whitespace and lowercasing; in
particular "Paris" graded against " paris " is marked correct.  (The
source lowercases before trimming; the two normalisations commute.)
-/
theorem gradeAnswer_spec (userAnswer correctAnswer : List Char) :
    (gradeAnswer userAnswer correctAnswer = true ↔
      jsToLowerCase (jsTrim userAnswer) = jsToLowerCase (jsTrim correctAnswer)) ∧
    gradeAnswer "Paris".data " paris ".data = true := by
  constructor
  · unfold gradeAnswer
    rw [beq_iff_eq, jsTrim_jsToLowerCase, jsTrim_jsToLowerCase]
  · decide

theorem countersConsistent_submitAnswer {s : SessionState} (h : countersConsistent s)
    (q : Question) (a : List Char) (fb : Except (List Char) (List Char)) :
    countersConsistent (submitAnswer s q a fb) := by
  obtain ⟨h1, h2⟩ := h
  constructor
  · simp [submitAnswer, h1]
  · simp [submitAnswer, List.filter_append, h2]
    cases gradeAnswer a q.correct_answer <;> simp

theorem countersConsistent_runSession {s : SessionState} (h : countersConsistent s)
    (steps : List SubmittedAnswer) : countersConsistent (runSession s steps) := by
  induction steps generalizing s with
  | nil => exact h
  | cons a rest ih =>
    exact ih (countersConsistent_submitAnswer h a.question a.text a.feedbackResult)

/--
**C2.** After every recorded answer the stored counters match the answer
history: `total_questions` is the number of answer rows and
`correct_answers` the number of correct ones — each submission bumps the
total by exactly 1 and the correct count by 1 exactly when the answer
was graded correct; the invariant holds along every run from a fresh
session, and accuracy recomputed from the history equals
`correct_answers / total_questions`.
-/
theorem submitAnswer_counters (s : SessionState) (q : Question) (a : List Char)
    (fb : Except (List Char) (List Char)) (h : countersConsistent s) :
    countersConsistent (submitAnswer s q a fb) ∧
    (submitAnswer s q a fb).total_questions = s.total_questions + 1 ∧
    (submitAnswer s q a fb).correct_answers
      = s.correct_answers + (if gradeAnswer a q.correct_answer then 1 else 0) ∧
    (submitAnswer s q a fb).answers.length = s.answers.length + 1 ∧
    (∀ profileId topicId steps,
      countersConsistent (runSession (initializeQuiz profileId topicId) steps)) ∧
    (∀ s' : SessionState, countersConsistent s' →
      (((s'.answers.filter (fun r => r.is_correct)).length : ℚ) / (s'.answers.length : ℚ)
        = (s'.correct_answers : ℚ) / (s'.total_questions : ℚ))) := by
  refine ⟨countersConsistent_submitAnswer h q a fb, rfl, rfl, by simp [submitAnswer], ?_, ?_⟩
  · intro profileId topicId steps
    exact countersConsistent_runSession (by constructor <;> rfl) steps
  · rintro s' ⟨h1, h2⟩
    rw [h1, h2]

/-- Witness for `submitAnswer_counters` on a fresh session. -/
theorem submitAnswer_counters_witness :
    countersConsistent
      (submitAnswer (initializeQuiz 1 1) ⟨0, [], .mcq, .easy, []⟩ [] (.ok [])) :=
  (submitAnswer_counters (initializeQuiz 1 1) ⟨0, [], .mcq, .easy, []⟩ [] (.ok [])
    (by constructor <;> rfl)).1

/--
**C3 counterexample.** The evolution advisor changes the difficulty of a
fresh session with 0 recorded answers: applied to a newly created
session and a decision carrying `new_difficulty = hard`, the stored
difficulty becomes hard although fewer than 5 answers are recorded.
-/
theorem evolution_changes_difficulty_before_five :
    (initializeQuiz 1 1).total_questions = 0 ∧
    (applyEvolution (initializeQuiz 1 1)
        ⟨[], [], some .hard, none, none, []⟩).current_difficulty
      ≠ (initializeQuiz 1 1).current_difficulty := by
  exact ⟨rfl, by decide⟩

/--
**C3 (amended).** Answer submission never changes the difficulty while
fewer than 5 total answers have been recorded (the tier can change only
once the updated total reaches 5); the topic-evolution advisor, however,
applies a returned `new_difficulty` to the session unconditionally,
regardless of the answer count.
-/
theorem submit_difficulty_gate (s : SessionState) (q : Question) (a : List Char)
    (fb : Except (List Char) (List Char)) (dec : EvolutionDecision) (d : Difficulty)
    (hd : dec.new_difficulty = some d) :
    (s.total_questions + 1 < 5 →
      (submitAnswer s q a fb).current_difficulty = s.current_difficulty) ∧
    (applyEvolution s dec).current_difficulty = d := by
  constructor
  · intro hlt
    simp only [submitAnswer, adaptDifficulty]
    rw [if_neg (by omega)]
  · cases hf : dec.focus_area <;> simp [applyEvolution, hd, hf]

/-- Witness for `submit_difficulty_gate` on a fresh session. -/
theorem submit_difficulty_gate_witness :
    (submitAnswer (initializeQuiz 1 1) ⟨0, [], .mcq, .easy, []⟩ [] (.ok [])).current_difficulty
      = (initializeQuiz 1 1).current_difficulty ∧
    (applyEvolution (initializeQuiz 1 1)
        ⟨[], [], some .hard, none, none, []⟩).current_difficulty = .hard :=
  ⟨(submit_difficulty_gate (initializeQuiz 1 1) ⟨0, [], .mcq, .easy, []⟩ [] (.ok [])
      ⟨[], [], some .hard, none, none, []⟩ .hard rfl).1 (by decide),
   (submit_difficulty_gate (initializeQuiz 1 1) ⟨0, [], .mcq, .easy, []⟩ [] (.ok [])
      ⟨[], [], some .hard, none, none, []⟩ .hard rfl).2⟩

/--
**C5 counterexample.** AI feedback is requested for `fill_blank`
questions as well, although fill-blank is not an open-form type: the
guard in `submitAnswer` excludes only `mcq` and `true_false`.
-/
theorem feedback_requested_for_fill_blank :
    requestsAiFeedback .fill_blank = true ∧
    QuestionType.fill_blank ≠ .short_answer ∧
    QuestionType.fill_blank ≠ .long_answer := by
  decide

/--
**C5 (amended).** Qualitative feedback is requested exactly for the
types other than multiple-choice and true/false — that is, for
fill-blank, short-answer and long-answer alike — and the feedback
outcome never alters the computed correctness flags or the correct
count.
-/
theorem requestsAiFeedback_spec (t : QuestionType) (s : SessionState) (q : Question)
    (a : List Char) (fb fbAlt : Except (List Char) (List Char)) :
    (requestsAiFeedback t = true ↔
      (t = .fill_blank ∨ t = .short_answer ∨ t = .long_answer)) ∧
    (submitAnswer s q a fb).answers.map (fun r => r.is_correct)
      = (submitAnswer s q a fbAlt).answers.map (fun r => r.is_correct) ∧
    (submitAnswer s q a fb).correct_answers = (submitAnswer s q a fbAlt).correct_answers := by
  refine ⟨by cases t <;> decide, ?_, rfl⟩
  simp [submitAnswer]

/--
**C10.** Every newly created quiz session starts at medium difficulty,
regardless of user and topic.
-/
theorem initializeQuiz_difficulty (profileId topicId : Nat) :
    (initializeQuiz profileId topicId).current_difficulty = .medium := rfl

/-- The greedy tail consumes exactly through the last close brace:
declaratively, it strips the characters after the last close brace and
fails when there is none. -/
theorem greedyToLastClose_eq (s : List Char) :
    greedyToLastClose s =
      (if ((s.reverse.dropWhile (fun c => c != cbrace)).reverse).isEmpty then none
       else some (s.reverse.dropWhile (fun c => c != cbrace)).reverse) := by
  induction s with
  | nil => rfl
  | cons c rest ih =>
    cases hX : rest.reverse.dropWhile (fun c => c != cbrace) with
    | nil =>
      have hg : greedyToLastClose rest = none := by
        rw [ih, hX]; simp
      simp only [greedyToLastClose, hg, List.reverse_cons, List.dropWhile_append, hX]
      by_cases hc : c = cbrace
      · subst hc
        simp
      · simp [List.dropWhile_cons, hc]
    | cons x xs =>
      have hg : greedyToLastClose rest = some ((x :: xs).reverse) := by
        rw [ih, hX]; simp
      simp only [greedyToLastClose, hg, List.reverse_cons, List.dropWhile_append, hX]
      simp

/-- When the input holds no close brace at all, the regex has no match
anywhere. -/
theorem jsonMatch_eq_none_of_greedy_none {s : List Char}
    (h : greedyToLastClose s = none) : jsonMatch s = none := by
  induction s with
  | nil => rfl
  | cons c rest ih =>
    cases hg : greedyToLastClose rest with
    | some t => simp [greedyToLastClose, hg] at h
    | none =>
      simp only [greedyToLastClose, hg] at h
      have hc : ¬ c = cbrace := by
        intro hcc
        simp [hcc] at h
      simp [jsonMatch, hg, ih hg]

/--
**C7 (amended).** The extraction both handlers apply to the
collaborator's reply is the greedy regex match: the substring from the
first opening brace of the text through the last closing brace of the
whole text (no match when no closing brace follows the first opening
brace), and exactly that substring is handed to `JSON.parse` — it is
not the first balanced JSON object.
-/
theorem jsonMatch_greedy_span (text : List Char) :
    jsonMatch text = firstToLastBraceSpan text := by
  induction text with
  | nil => rfl
  | cons c rest ih =>
    by_cases hc : c = obrace
    · subst hc
      cases hg : greedyToLastClose rest with
      | some t =>
        rw [greedyToLastClose_eq] at hg
        cases hX : rest.reverse.dropWhile (fun c => c != cbrace) with
        | nil => rw [hX] at hg; simp at hg
        | cons x xs =>
          rw [hX] at hg
          simp at hg
          simp only [jsonMatch, greedyToLastClose_eq, hX, firstToLastBraceSpan,
            List.dropWhile_cons]
          simp [List.dropWhile_append, hX, hg]
          have ht : ¬ t = [] := by rw [← hg]; simp
          simp [ht]
      | none =>
        have hX : rest.reverse.dropWhile (fun c => c != cbrace) = [] := by
          rw [greedyToLastClose_eq] at hg
          by_cases h : ((rest.reverse.dropWhile (fun c => c != cbrace)).reverse).isEmpty
          · simpa [List.isEmpty_iff, List.reverse_eq_nil_iff] using h
          · rw [if_neg h] at hg; exact absurd hg (by simp)
        have hnone := jsonMatch_eq_none_of_greedy_none hg
        simp only [jsonMatch, hg, hnone, firstToLastBraceSpan, List.dropWhile_cons]
        simp [List.dropWhile_append, hX]
        rw [if_neg (by decide)]
    · have hspan : firstToLastBraceSpan (c :: rest) = firstToLastBraceSpan rest := by
        simp only [firstToLastBraceSpan, List.dropWhile_cons]
        simp [hc]
      rw [hspan, ← ih]
      simp [jsonMatch, hc]

/--
**C7 counterexample.** On a response holding two balanced objects the
code extracts the whole greedy span from the first opening brace to the
last closing brace of the text, not the first balanced object the claim
describes.
-/
theorem jsonMatch_not_first_balanced :
    jsonMatch [obrace, cbrace, ' ', obrace, cbrace]
      = some [obrace, cbrace, ' ', obrace, cbrace] ∧
    specFirstBalanced [obrace, cbrace, ' ', obrace, cbrace] = some [obrace, cbrace] ∧
    jsonMatch [obrace, cbrace, ' ', obrace, cbrace]
      ≠ specFirstBalanced [obrace, cbrace, ' ', obrace, cbrace] := by
  exact ⟨rfl, rfl, by decide⟩

/--
**C6 (amended).** A collaborator response with no extractable brace
span, or whose extracted span fails JSON parsing, makes generation fail
with a format/parse error and nothing is persisted.  (The field shape
of a successfully parsed object is not validated — see the
counterexample.)
-/
theorem generation_error_no_persist (text : List Char) (save : Except (List Char) Nat) :
    (jsonMatch text = none →
      generateQuestionHandler text save
        = { response := .error "Invalid JSON format in response".data, persisted := false }) ∧
    (∀ sub, jsonMatch text = some sub → parseJson sub = none →
      generateQuestionHandler text save
        = { response := .error "SyntaxError".data, persisted := false }) := by
  constructor
  · intro h
    simp [generateQuestionHandler, h]
  · intro sub h1 h2
    simp [generateQuestionHandler, h1, h2]

/-- Witness for `generation_error_no_persist`: a reply with no braces,
and a reply whose brace span is not JSON. -/
theorem generation_error_no_persist_witness :
    generateQuestionHandler "no json here".data (.ok 7)
      = { response := .error "Invalid JSON format in response".data, persisted := false } ∧
    generateQuestionHandler [obrace, 'x', cbrace] (.ok 7)
      = { response := .error "SyntaxError".data, persisted := false } :=
  ⟨(generation_error_no_persist "no json here".data (.ok 7)).1 rfl,
   (generation_error_no_persist [obrace, 'x', cbrace] (.ok 7)).2 [obrace, 'x', cbrace] rfl rfl⟩

/--
**C6 counterexample.** A response that is a parsable JSON object lacking
every expected field — the bare empty object — is not rejected: the
handler validates no fields, attempts the insert, and even when the
storage collaborator rejects the row it answers success with the
(empty) question fields and a placeholder id, where the claim required
a generation/format error.
-/
theorem generation_accepts_wrong_shape :
    parseJson [obrace, cbrace] = some (Json.obj []) ∧
    hasExpectedFields (buildFields (Json.obj [])) = false ∧
    (generateQuestionHandler [obrace, cbrace]
        (.error "null value violates not-null constraint".data)).response
      = .ok (none, buildFields (Json.obj [])) ∧
    (generateQuestionHandler [obrace, cbrace]
        (.error "null value violates not-null constraint".data)).persisted = false := by
  exact ⟨rfl, rfl, rfl, rfl⟩

/--
**C8.** Reuse is preferred over generation: when a stored question
matching (topic, difficulty) exists, a stored matching question is
returned and no generation is requested; generation is requested
exactly when no match exists, and its prompt context holds at most 5
existing questions, all of the requested topic.
-/
theorem loadNextQuestion_prefers_reuse (db : List StoredQuestion) (t : Nat) (d : Difficulty)
    (hex : ∃ q ∈ db, q.topic_id = t ∧ q.difficulty = d) :
    (∃ q, loadNextQuestion db t d = .reused q ∧ q ∈ db ∧ q.topic_id = t ∧ q.difficulty = d) ∧
    (∀ db' : List StoredQuestion, (∀ q ∈ db', ¬ (q.topic_id = t ∧ q.difficulty = d)) →
      loadNextQuestion db' t d = .generationRequested (queryTopicContext db' t) ∧
      (queryTopicContext db' t).length ≤ 5 ∧
      (∀ q ∈ queryTopicContext db' t, q.topic_id = t)) := by
  constructor
  · obtain ⟨q0, hmem, hq1, hq2⟩ := hex
    have hfil : db.filter (fun q => q.topic_id == t && q.difficulty == d) ≠ [] := by
      intro hnil
      have := List.filter_eq_nil_iff.mp hnil q0 hmem
      simp [hq1, hq2] at this
    cases hF : db.filter (fun q => q.topic_id == t && q.difficulty == d) with
    | nil => exact absurd hF hfil
    | cons qh qt =>
      have hqh : qh ∈ db.filter (fun q => q.topic_id == t && q.difficulty == d) := by
        rw [hF]; exact List.mem_cons_self _ _
      obtain ⟨hin, hpred⟩ := List.mem_filter.mp hqh
      simp only [Bool.and_eq_true, beq_iff_eq] at hpred
      exact ⟨qh, by simp [loadNextQuestion, loadNextQuestionStep, queryTopicDifficulty, hF],
        hin, hpred.1, hpred.2⟩
  · intro db' hnone
    have hfil : db'.filter (fun q => q.topic_id == t && q.difficulty == d) = [] := by
      apply List.filter_eq_nil_iff.mpr
      intro q hq
      simp only [Bool.and_eq_true, beq_iff_eq]
      exact fun hcon => hnone q hq ⟨hcon.1, hcon.2⟩
    refine ⟨by simp [loadNextQuestion, loadNextQuestionStep, queryTopicDifficulty, hfil],
      List.length_take_le 5 _, ?_⟩
    intro q hq
    have hq' : q ∈ db'.filter (fun q => q.topic_id == t) := List.mem_of_mem_take hq
    have := (List.mem_filter.mp hq').2
    simpa using this

/-- Witness for `loadNextQuestion_prefers_reuse`: a one-question store
with a match, and the empty store. -/
theorem loadNextQuestion_prefers_reuse_witness :
    (∃ q, loadNextQuestion [⟨1, .easy, [], []⟩] 1 .easy = .reused q ∧
      q ∈ [(⟨1, .easy, [], []⟩ : StoredQuestion)] ∧ q.topic_id = 1 ∧ q.difficulty = .easy) ∧
    loadNextQuestion [] 1 .easy = .generationRequested [] := by
  refine ⟨(loadNextQuestion_prefers_reuse [⟨1, .easy, [], []⟩] 1 .easy
    ⟨⟨1, .easy, [], []⟩, by simp, rfl, rfl⟩).1, ?_⟩
  exact ((loadNextQuestion_prefers_reuse [⟨1, .easy, [], []⟩] 1 .easy
    ⟨⟨1, .easy, [], []⟩, by simp, rfl, rfl⟩).2 [] (by simp)).1

/--
**C9 counterexample.** A read error from the storage collaborator while
fetching the next stored question is not surfaced to the user: it is
logged and generation is silently requested instead, where the claim
required the error to be surfaced verbatim with no substitution.
-/
theorem read_error_not_surfaced :
    loadNextQuestionStep (.error "connection reset".data) [] 3 .medium
      = .generationRequested [] ∧
    loadNextQuestionStep (.error "connection reset".data) [] 3 .medium
      ≠ .errorShown "connection reset".data := by
  exact ⟨rfl, by decide⟩

/--
**C9 (amended).** Not every persistence error is surfaced: a read error
on the next-question fetch degrades to a generation request (logged
only), a write error while saving a generated question is logged while
the handler still answers success with the generated fields and a
placeholder id, and a failed feedback call degrades to empty feedback
on the stored answer row.
-/
theorem persistence_errors_swallowed (e : List Char) (db : List StoredQuestion) (t : Nat)
    (d : Difficulty) (text sub : List Char) (j : Json) (s : SessionState) (q : Question)
    (a : List Char) (hm : jsonMatch text = some sub) (hp : parseJson sub = some j) :
    loadNextQuestionStep (.error e) db t d = .generationRequested (queryTopicContext db t) ∧
    generateQuestionHandler text (.error e)
      = { response := .ok (none, buildFields j), persisted := false } ∧
    (submitAnswer s q a (.error e)).answers
      = s.answers ++ [⟨q.id, a, gradeAnswer a q.correct_answer, []⟩] := by
  refine ⟨rfl, by simp [generateQuestionHandler, hm, hp], ?_⟩
  simp [submitAnswer]

/-- Witness for `persistence_errors_swallowed` at a concrete failed
fetch and a concrete failed insert. -/
theorem persistence_errors_swallowed_witness :
    loadNextQuestionStep (.error "db down".data) [] 3 .medium = .generationRequested [] ∧
    generateQuestionHandler [obrace, cbrace] (.error "db down".data)
      = { response := .ok (none, buildFields (Json.obj [])), persisted := false } := by
  have h := persistence_errors_swallowed "db down".data [] 3 .medium [obrace, cbrace]
    [obrace, cbrace] (Json.obj []) (initializeQuiz 1 1) ⟨0, [], .mcq, .easy, []⟩ []
    rfl rfl
  exact ⟨h.1, h.2.1⟩

end AdaptiQuest
